import Mathlib

/-! TonWelcome: command dispatch and CleverTap delivery

A shallow embedding of `main.go`: the record types sent to CleverTap, the two
record builders (`uploadCleverTapProfile`, `pushCleverTapEvent`), the delivery
client (`sendToCleverTap`) and the body of the update loop of `main`.

Side effects are made explicit.  Every function that talks to the outside
world returns the list of `Effect`s it performs, in order.  The outside world
itself (the JSON encoder, `http.NewRequest`, `client.Do`, `bot.Send`) is the
`Env` argument, so that every statement quantifies over all its behaviours.

Go `error` values are modelled by their message: `Option String`, with `none`
for `nil`.  `int64` values are modelled as `Int`.
-/

namespace TonWelcome

/-! ## Configuration and constants -/

/-- The process-wide credentials read from the environment at start-up. -/
structure Config where
  telegramBotToken : String
  cleverTapAccountID : String
  cleverTapPasscode : String
  deriving DecidableEq, Repr

def cleverTapAPIBaseURL : String := "https://api.clevertap.com/1/upload"

def btnText : String := "Текст"
def btnPicture : String := "Картинка"
def btnVideo : String := "Видео"

/-! ## CleverTap record types

The field `Type` of the source is written `Type_`, the former being a keyword here. -/

structure CTUserProps where
  Name : String
  TGUsername : String
  TGChatID : Int
  TGFirstName : String
  TGLastName : String
  deriving DecidableEq, Repr

structure CTProfileData where
  Type_ : String
  Identity : String
  ProfileData : CTUserProps
  deriving DecidableEq, Repr

structure CTEventProps where
  TGChatID : Int
  Source : String
  deriving DecidableEq, Repr

structure CTEventData where
  Type_ : String
  Identity : String
  EvtName : String
  EvtData : CTEventProps
  deriving DecidableEq, Repr

/-- The values this program stores in the `[]interface{}` of a payload. -/
inductive Record where
  | profile (p : CTProfileData)
  | event (e : CTEventData)
  deriving DecidableEq, Repr

structure CTPayload where
  Data : List Record
  deriving DecidableEq, Repr

/-! ## Chat transport types (the fields of `tgbotapi` this program reads or writes) -/

structure User where
  ID : Int
  FirstName : String
  LastName : String
  UserName : String
  deriving DecidableEq, Repr

structure Chat where
  ID : Int
  deriving DecidableEq, Repr

/-- An inbound message. The sender is taken to be present, as the transport supplies
one with every update that carries a message; `main` reads it unconditionally. -/
structure Message where
  From : User
  Chat : Chat
  Text : String
  deriving DecidableEq, Repr

structure Update where
  Message : Option Message
  deriving DecidableEq, Repr

structure KeyboardButton where
  Text : String
  deriving DecidableEq, Repr

structure ReplyKeyboardMarkup where
  Keyboard : List (List KeyboardButton)
  ResizeKeyboard : Bool
  deriving DecidableEq, Repr

structure MessageConfig where
  ChatID : Int
  Text : String
  ReplyMarkup : Option ReplyKeyboardMarkup
  deriving DecidableEq, Repr

def NewMessage (chatID : Int) (text : String) : MessageConfig :=
  { ChatID := chatID, Text := text, ReplyMarkup := none }

def NewKeyboardButton (text : String) : KeyboardButton := { Text := text }

def NewKeyboardButtonRow (buttons : List KeyboardButton) : List KeyboardButton := buttons

def NewReplyKeyboard (rows : List (List KeyboardButton)) : ReplyKeyboardMarkup :=
  { Keyboard := rows, ResizeKeyboard := true }

/-! ## HTTP types -/

structure Request where
  Method : String
  URL : String
  Header : List (String × String)
  Body : String
  deriving DecidableEq, Repr

structure Response where
  StatusCode : Int
  Status : String
  deriving DecidableEq, Repr

/-- Sets a header the way `Header.Set` does: the previous values of the key are replaced. -/
def Request.setHeader (req : Request) (key value : String) : Request :=
  { req with Header := (req.Header.filter (fun kv => kv.1 != key)) ++ [(key, value)] }

/-- The outside world of one dispatch: the JSON encoder, the request
constructor, the HTTP round trip and the chat transport. -/
structure Env where
  jsonMarshal : CTPayload → Except String String
  newRequest : String → String → String → Except String Request
  clientDo : Request → Except String Response
  botSend : MessageConfig → Option String

/-- What the program does to the outside world, in order: a log line, a call of the
delivery client, an HTTP request handed to `client.Do`, a message handed to `bot.Send`. -/
inductive Effect where
  | log (line : String)
  | deliver (payload : CTPayload)
  | post (req : Request)
  | send (msg : MessageConfig)
  deriving DecidableEq, Repr

/-! ## Decimal formatting (`strconv.FormatInt(i, 10)`, also the `%d` verb) -/

/-- The base-10 string of an integer: a minus sign for a negative value,
then the digits of the magnitude. -/
def formatInt (i : Int) : String :=
  if i < 0 then String.mk ('-' :: Nat.toDigits 10 i.natAbs)
  else String.mk (Nat.toDigits 10 i.natAbs)

/-- The value of a decimal digit character, if it is one. -/
def digitValue (c : Char) : Option Nat :=
  if c.isDigit then some (c.toNat - 48) else none

/-- The natural number written by a list of decimal digits, most significant first. -/
def decimalNat (ds : List Char) : Option Nat :=
  ds.foldl (fun acc c => acc.bind (fun a => (digitValue c).map (fun d => 10 * a + d))) (some 0)

/-- The integer a string denotes when read as a base-10 numeral: an optional minus
sign, then one or more decimal digits. Any other string denotes nothing. -/
def decimalValue (s : String) : Option Int :=
  match s.data with
  | [] => none
  | c :: ds =>
    if c = '-' then
      if ds = [] then none else Option.map (fun n : Nat => -(n : Int)) (decimalNat ds)
    else Option.map (fun n : Nat => (n : Int)) (decimalNat (c :: ds))

/-! ## The delivery client -/

def StatusOK : Int := 200

/-- Embedding of `sendToCleverTap`: the effects and the returned error. -/
def sendToCleverTap (cfg : Config) (env : Env) (payload : CTPayload) :
    List Effect × Option String :=
  match env.jsonMarshal payload with
  | .error err => ([], some ("ошибка маршалинга JSON: " ++ err))
  | .ok jsonData =>
    match env.newRequest "POST" cleverTapAPIBaseURL jsonData with
    | .error err => ([], some ("ошибка создания HTTP-запроса: " ++ err))
    | .ok req =>
      let req := req.setHeader "X-CleverTap-Account-Id" cfg.cleverTapAccountID
      let req := req.setHeader "X-CleverTap-Passcode" cfg.cleverTapPasscode
      let req := req.setHeader "Content-Type" "application/json; charset=utf-8"
      match env.clientDo req with
      | .error err => ([Effect.post req], some ("ошибка выполнения HTTP-запроса: " ++ err))
      | .ok resp =>
        if resp.StatusCode ≠ StatusOK then
          ([Effect.post req], some ("неуспешный статус от CleverTap: " ++ resp.Status))
        else
          ([Effect.post req, Effect.log "Данные успешно отправлены в CleverTap."], none)

/-! ## The record builders -/

/-- Embedding of `uploadCleverTapProfile`. -/
def uploadCleverTapProfile (cfg : Config) (env : Env) (user : User) (chatID : Int) :
    List Effect × Option String :=
  let profile : CTProfileData :=
    { Type_ := "profile"
      Identity := formatInt user.ID
      ProfileData :=
        { Name := user.FirstName ++ " " ++ user.LastName
          TGUsername := user.UserName
          TGChatID := chatID
          TGFirstName := user.FirstName
          TGLastName := user.LastName } }
  let payload : CTPayload := { Data := [Record.profile profile] }
  let r := sendToCleverTap cfg env payload
  (Effect.log ("Отправка профиля для ID: " ++ formatInt user.ID)
    :: Effect.deliver payload :: r.1, r.2)

/-- Embedding of `pushCleverTapEvent`. -/
def pushCleverTapEvent (cfg : Config) (env : Env) (identity : String) (chatID : Int)
    (eventName : String) : List Effect × Option String :=
  let event : CTEventData :=
    { Type_ := "event"
      Identity := identity
      EvtName := eventName
      EvtData := { TGChatID := chatID, Source := "TonWelcomeBot" } }
  let payload : CTPayload := { Data := [Record.event event] }
  let r := sendToCleverTap cfg env payload
  (Effect.log ("Отправка события '" ++ eventName ++ "' для ID: " ++ identity)
    :: Effect.deliver payload :: r.1, r.2)

/-! ## The presenter and the dispatcher -/

/-- Embedding of `sendWelcomeKeyboard`. -/
def sendWelcomeKeyboard (env : Env) (chatID : Int) : List Effect :=
  let msg := NewMessage chatID "Добро пожаловать! Выберите опцию:"
  let keyboard := NewReplyKeyboard
    [NewKeyboardButtonRow
      [NewKeyboardButton btnText, NewKeyboardButton btnPicture, NewKeyboardButton btnVideo]]
  let keyboard := { keyboard with ResizeKeyboard := true }
  let msg := { msg with ReplyMarkup := some keyboard }
  match env.botSend msg with
  | some err => [Effect.send msg, Effect.log ("Ошибка отправки клавиатуры: " ++ err)]
  | none => [Effect.send msg]

/-- The `switch update.Message.Text` of `main`, for a message that is present. -/
def dispatch (cfg : Config) (env : Env) (m : Message) : List Effect :=
  let user := m.From
  let chatID := m.Chat.ID
  let identity := formatInt user.ID
  Effect.log ("[" ++ user.UserName ++ "] (" ++ formatInt chatID ++ ") " ++ m.Text) ::
  (if m.Text = "/start" then
    let r := uploadCleverTapProfile cfg env user chatID
    let logErr := match r.2 with
      | some err => [Effect.log ("Ошибка отправки профиля в CleverTap: " ++ err)]
      | none => []
    r.1 ++ logErr ++ sendWelcomeKeyboard env chatID
  else if m.Text = btnText ∨ m.Text = btnPicture ∨ m.Text = btnVideo then
    let eventName : String :=
      if m.Text = btnText then "TestWelcomeText"
      else if m.Text = btnPicture then "TestWelcomePicture"
      else if m.Text = btnVideo then "TestWelcomeVideo"
      else ""
    let r := pushCleverTapEvent cfg env identity chatID eventName
    let logErr := match r.2 with
      | some err => [Effect.log ("Ошибка отправки события в CleverTap: " ++ err)]
      | none => []
    let reply := "Событие '" ++ eventName ++ "' отправлено!"
    let msg := NewMessage chatID reply
    r.1 ++ logErr ++ [Effect.send msg]
  else
    let msg := NewMessage chatID "Используйте кнопки ниже или команду /start"
    [Effect.send msg])

/-- One iteration of the update loop of `main`: updates without a message are skipped. -/
def mainStep (cfg : Config) (env : Env) (update : Update) : List Effect :=
  match update.Message with
  | none => []
  | some m => dispatch cfg env m

/-! ## JSON encoding

A model of `json.Marshal` on the record types above: struct fields are written in
declaration order under their `json` tag, strings are quoted with the escapes of
`encoding/json` (HTML escaping on), `int64` fields are written in base 10. -/

def hex : List Char := "0123456789abcdef".data

/-- The ASCII characters that `encoding/json` copies unchanged into a quoted string. -/
def htmlSafe (c : Char) : Bool :=
  decide (0x20 ≤ c.toNat) && decide (c.toNat < 0x80) && c != Char.ofNat 0x22 &&
    c != Char.ofNat 0x5c && c != '<' && c != '>' && c != '&'

/-- The encoding of one character inside a quoted JSON string. -/
def appendChar (c : Char) : List Char :=
  if c.toNat < 0x80 then
    if htmlSafe c then [c]
    else if c = Char.ofNat 0x5c ∨ c = Char.ofNat 0x22 then [Char.ofNat 0x5c, c]
    else if c = Char.ofNat 0x08 then [Char.ofNat 0x5c, 'b']
    else if c = Char.ofNat 0x0c then [Char.ofNat 0x5c, 'f']
    else if c = Char.ofNat 0x0a then [Char.ofNat 0x5c, 'n']
    else if c = Char.ofNat 0x0d then [Char.ofNat 0x5c, 'r']
    else if c = Char.ofNat 0x09 then [Char.ofNat 0x5c, 't']
    else [Char.ofNat 0x5c, 'u', '0', '0', hex.getD (c.toNat / 16) '0', hex.getD (c.toNat % 16) '0']
  else if c = Char.ofNat 0x2028 ∨ c = Char.ofNat 0x2029 then
    [Char.ofNat 0x5c, 'u', '2', '0', '2', hex.getD (c.toNat % 16) '0']
  else [c]

/-- A string as a quoted JSON string. -/
def appendString (src : String) : String :=
  String.mk (Char.ofNat 0x22 :: (src.data.flatMap appendChar ++ [Char.ofNat 0x22]))

def marshalCTUserProps (p : CTUserProps) : String :=
  "\x7b\"Name\":" ++ appendString p.Name ++
  ",\"tg_username\":" ++ appendString p.TGUsername ++
  ",\"tg_chat_id\":" ++ formatInt p.TGChatID ++
  ",\"tg_first_name\":" ++ appendString p.TGFirstName ++
  ",\"tg_last_name\":" ++ appendString p.TGLastName ++ "\x7d"

def marshalCTProfileData (p : CTProfileData) : String :=
  "\x7b\"type\":" ++ appendString p.Type_ ++
  ",\"identity\":" ++ appendString p.Identity ++
  ",\"profileData\":" ++ marshalCTUserProps p.ProfileData ++ "\x7d"

def marshalCTEventProps (p : CTEventProps) : String :=
  "\x7b\"tg_chat_id\":" ++ formatInt p.TGChatID ++
  ",\"source\":" ++ appendString p.Source ++ "\x7d"

def marshalCTEventData (e : CTEventData) : String :=
  "\x7b\"type\":" ++ appendString e.Type_ ++
  ",\"identity\":" ++ appendString e.Identity ++
  ",\"evtName\":" ++ appendString e.EvtName ++
  ",\"evtData\":" ++ marshalCTEventProps e.EvtData ++ "\x7d"

def marshalRecord : Record → String
  | Record.profile p => marshalCTProfileData p
  | Record.event e => marshalCTEventData e

/-- The encoder applied to a payload (built with a non-nil slice, as everywhere in this
program); it has no failing case on these types. -/
def jsonMarshal (payload : CTPayload) : Except String String :=
  Except.ok ("\x7b\"d\":[" ++ String.intercalate "," (payload.Data.map marshalRecord) ++ "]\x7d")

/-- An outside world with the encoder above, a request constructor that
accepts its arguments, a server answering with the given status, and a chat
transport that accepts every message. -/
def serverEnv (statusCode : Int) (status : String) : Env :=
  { jsonMarshal := jsonMarshal
    newRequest := fun method url body =>
      Except.ok { Method := method, URL := url, Header := [], Body := body }
    clientDo := fun _ => Except.ok { StatusCode := statusCode, Status := status }
    botSend := fun _ => none }

/-! ## Observations on a trace -/

/-- The calls of the delivery client and of the chat transport, in order. -/
def calls (tr : List Effect) : List Effect :=
  tr.filter (fun e => match e with
    | Effect.deliver _ => true
    | Effect.send _ => true
    | _ => false)

/-- The payloads handed to the delivery client. -/
def deliveries (tr : List Effect) : List CTPayload :=
  tr.filterMap (fun e => match e with
    | Effect.deliver p => some p
    | _ => none)

/-- The HTTP requests issued. -/
def posts (tr : List Effect) : List Request :=
  tr.filterMap (fun e => match e with
    | Effect.post r => some r
    | _ => none)

/-- The messages sent to the chat. -/
def replies (tr : List Effect) : List MessageConfig :=
  tr.filterMap (fun e => match e with
    | Effect.send m => some m
    | _ => none)

def Record.identity : Record → String
  | Record.profile p => p.Identity
  | Record.event e => e.Identity

/-- The identities of all records handed to the delivery client. -/
def identitiesOf (tr : List Effect) : List String :=
  (deliveries tr).flatMap (fun p => p.Data.map Record.identity)

/-! ## Sample inputs -/

def sampleConfig : Config :=
  { telegramBotToken := "token", cleverTapAccountID := "acct", cleverTapPasscode := "pass" }

def ann : User := { ID := 42, FirstName := "Ann", LastName := "Lee", UserName := "annlee" }

def annSays (text : String) : Message := { From := ann, Chat := { ID := 100 }, Text := text }

def bob : User := { ID := 43, FirstName := "Bob", LastName := "", UserName := "" }

def bobSays (text : String) : Message := { From := bob, Chat := { ID := 7 }, Text := text }

/-! ## The delivery client neither calls itself nor the chat transport -/

theorem calls_sendToCleverTap (cfg : Config) (env : Env) (payload : CTPayload) :
    calls (sendToCleverTap cfg env payload).1 = [] := by
  unfold sendToCleverTap
  cases env.jsonMarshal payload with
  | error e => rfl
  | ok jsonData =>
    dsimp only
    cases env.newRequest "POST" cleverTapAPIBaseURL jsonData with
    | error e => rfl
    | ok req =>
      dsimp only
      split
      · rfl
      · split <;> rfl

theorem calls_append (a b : List Effect) : calls (a ++ b) = calls a ++ calls b := by
  simp [calls]

theorem calls_logErr (pre : String) (r : Option String) :
    calls (match r with
      | some err => [Effect.log (pre ++ err)]
      | none => []) = [] := by
  cases r <;> rfl

theorem calls_sendWelcomeKeyboard (env : Env) (chatID : Int) :
    calls (sendWelcomeKeyboard env chatID) =
      [Effect.send
        { ChatID := chatID
          Text := "Добро пожаловать! Выберите опцию:"
          ReplyMarkup := some
            { Keyboard := [[{ Text := "Текст" }, { Text := "Картинка" }, { Text := "Видео" }]]
              ResizeKeyboard := true } }] := by
  unfold sendWelcomeKeyboard
  dsimp only
  split <;> rfl

theorem calls_uploadCleverTapProfile (cfg : Config) (env : Env) (user : User) (chatID : Int) :
    calls (uploadCleverTapProfile cfg env user chatID).1 =
      [Effect.deliver
        { Data := [Record.profile
          { Type_ := "profile"
            Identity := formatInt user.ID
            ProfileData :=
              { Name := user.FirstName ++ " " ++ user.LastName
                TGUsername := user.UserName
                TGChatID := chatID
                TGFirstName := user.FirstName
                TGLastName := user.LastName } }] }] := by
  have h := calls_sendToCleverTap cfg env
  simp only [uploadCleverTapProfile, calls, List.filter_cons] at h ⊢
  simp [h]

theorem calls_pushCleverTapEvent (cfg : Config) (env : Env) (identity : String) (chatID : Int)
    (eventName : String) :
    calls (pushCleverTapEvent cfg env identity chatID eventName).1 =
      [Effect.deliver
        { Data := [Record.event
          { Type_ := "event"
            Identity := identity
            EvtName := eventName
            EvtData := { TGChatID := chatID, Source := "TonWelcomeBot" } }] }] := by
  have h := calls_sendToCleverTap cfg env
  simp only [pushCleverTapEvent, calls, List.filter_cons] at h ⊢
  simp [h]

theorem calls_dispatch_start (cfg : Config) (env : Env) (m : Message) (h : m.Text = "/start") :
    calls (dispatch cfg env m) =
      calls (uploadCleverTapProfile cfg env m.From m.Chat.ID).1 ++
        calls (sendWelcomeKeyboard env m.Chat.ID) := by
  unfold dispatch
  simp only [h, if_true]
  rw [show ∀ (l : String) (t : List Effect), calls (Effect.log l :: t) = calls t from
    fun _ _ => rfl]
  rw [calls_append, calls_append, calls_logErr, List.append_nil]

theorem calls_dispatch_button (cfg : Config) (env : Env) (m : Message) (eventName : String)
    (hs : m.Text ≠ "/start") (hb : m.Text = btnText ∨ m.Text = btnPicture ∨ m.Text = btnVideo)
    (he : (if m.Text = btnText then "TestWelcomeText"
      else if m.Text = btnPicture then "TestWelcomePicture"
      else if m.Text = btnVideo then "TestWelcomeVideo"
      else "") = eventName) :
    calls (dispatch cfg env m) =
      calls (pushCleverTapEvent cfg env (formatInt m.From.ID) m.Chat.ID eventName).1 ++
        [Effect.send (NewMessage m.Chat.ID ("Событие '" ++ eventName ++ "' отправлено!"))] := by
  unfold dispatch
  simp only [if_neg hs, if_pos hb, he]
  rw [show ∀ (l : String) (t : List Effect), calls (Effect.log l :: t) = calls t from
    fun _ _ => rfl]
  rw [calls_append, calls_append, calls_logErr, List.append_nil]
  rfl

theorem calls_dispatch_other (cfg : Config) (env : Env) (m : Message)
    (hs : m.Text ≠ "/start") (h1 : m.Text ≠ btnText) (h2 : m.Text ≠ btnPicture)
    (h3 : m.Text ≠ btnVideo) :
    calls (dispatch cfg env m) =
      [Effect.send (NewMessage m.Chat.ID "Используйте кнопки ниже или команду /start")] := by
  unfold dispatch
  simp only [if_neg hs, h1, h2, h3, or_self, if_false]
  rfl

theorem dispatch_start_calls_eq (cfg : Config) (env1 env2 : Env) (m : Message)
    (h : m.Text = "/start") :
    calls (dispatch cfg env1 m) = calls (dispatch cfg env2 m) := by
  rw [calls_dispatch_start cfg env1 m h, calls_dispatch_start cfg env2 m h,
    calls_uploadCleverTapProfile, calls_uploadCleverTapProfile,
    calls_sendWelcomeKeyboard, calls_sendWelcomeKeyboard]

theorem deliveries_calls (tr : List Effect) : deliveries (calls tr) = deliveries tr := by
  induction tr with
  | nil => rfl
  | cons e t ih => cases e <;> simp_all [deliveries, calls]

theorem replies_calls (tr : List Effect) : replies (calls tr) = replies tr := by
  induction tr with
  | nil => rfl
  | cons e t ih => cases e <;> simp_all [replies, calls]

/-! ## The dispatcher -/

/-- C1: a message whose text is one of the three option labels makes the dispatcher
call the delivery client exactly once, with an event record named by the fixed
mapping of labels to event names, and then send the one plain reply naming that event. -/
theorem option_label_delivers_event (cfg : Config) (env : Env) (m : Message) (label evtName : String)
    (hmap : (label, evtName) ∈
      [("Текст", "TestWelcomeText"), ("Картинка", "TestWelcomePicture"),
        ("Видео", "TestWelcomeVideo")])
    (h : m.Text = label) :
    calls (dispatch cfg env m) =
      [Effect.deliver
        { Data := [Record.event
          { Type_ := "event"
            Identity := formatInt m.From.ID
            EvtName := evtName
            EvtData := { TGChatID := m.Chat.ID, Source := "TonWelcomeBot" } }] },
       Effect.send
        { ChatID := m.Chat.ID
          Text := "Событие '" ++ evtName ++ "' отправлено!"
          ReplyMarkup := none }] := by
  have key : m.Text ≠ "/start" ∧
      (m.Text = btnText ∨ m.Text = btnPicture ∨ m.Text = btnVideo) ∧
      (if m.Text = btnText then "TestWelcomeText"
        else if m.Text = btnPicture then "TestWelcomePicture"
        else if m.Text = btnVideo then "TestWelcomeVideo"
        else "") = evtName := by
    simp only [List.mem_cons, Prod.mk.injEq, List.mem_singleton, List.mem_nil_iff,
      or_false] at hmap
    rcases hmap with ⟨hl, he⟩ | ⟨hl, he⟩ | ⟨hl, he⟩ <;> subst hl <;> subst he <;>
      rw [h] <;> simp only [btnText, btnPicture, btnVideo] <;> decide
  rw [calls_dispatch_button cfg env m evtName key.1 key.2.1 key.2.2,
    calls_pushCleverTapEvent]
  rfl

theorem option_label_delivers_event_witness :
    ("Видео", "TestWelcomeVideo") ∈
      [("Текст", "TestWelcomeText"), ("Картинка", "TestWelcomePicture"),
        ("Видео", "TestWelcomeVideo")] ∧
    (annSays "Видео").Text = "Видео" ∧
    calls (dispatch sampleConfig (serverEnv 500 "500 Internal Server Error") (annSays "Видео")) =
      [Effect.deliver
        { Data := [Record.event
          { Type_ := "event"
            Identity := formatInt 42
            EvtName := "TestWelcomeVideo"
            EvtData := { TGChatID := 100, Source := "TonWelcomeBot" } }] },
       Effect.send
        { ChatID := 100
          Text := "Событие '" ++ "TestWelcomeVideo" ++ "' отправлено!"
          ReplyMarkup := none }] :=
  ⟨by simp, rfl,
    option_label_delivers_event sampleConfig (serverEnv 500 "500 Internal Server Error") (annSays "Видео")
      "Видео" "TestWelcomeVideo" (by simp) rfl⟩

/-- C2: a message whose text is neither "/start" nor one of the three option labels
makes the dispatcher call the delivery client zero times and send exactly one reply,
the fixed fallback text. -/
theorem unknown_text_gets_fallback (cfg : Config) (env : Env) (m : Message)
    (hs : m.Text ≠ "/start") (h1 : m.Text ≠ "Текст") (h2 : m.Text ≠ "Картинка")
    (h3 : m.Text ≠ "Видео") :
    deliveries (dispatch cfg env m) = [] ∧
    replies (dispatch cfg env m) =
      [{ ChatID := m.Chat.ID
         Text := "Используйте кнопки ниже или команду /start"
         ReplyMarkup := none }] ∧
    calls (dispatch cfg env m) =
      [Effect.send
        { ChatID := m.Chat.ID
          Text := "Используйте кнопки ниже или команду /start"
          ReplyMarkup := none }] := by
  have hc := calls_dispatch_other cfg env m hs h1 h2 h3
  refine ⟨?_, ?_, hc⟩
  · rw [← deliveries_calls, hc]; rfl
  · rw [← replies_calls, hc]; rfl

theorem unknown_text_gets_fallback_witness :
    ("" ≠ "/start" ∧ "" ≠ "Текст" ∧ "" ≠ "Картинка" ∧ "" ≠ "Видео" ∧
      deliveries (dispatch sampleConfig (serverEnv 200 "200 OK") (annSays "")) = [] ∧
      replies (dispatch sampleConfig (serverEnv 200 "200 OK") (annSays "")) =
        [{ ChatID := 100
           Text := "Используйте кнопки ниже или команду /start"
           ReplyMarkup := none }]) ∧
    ("/START" ≠ "/start" ∧
      deliveries (dispatch sampleConfig (serverEnv 200 "200 OK") (annSays "/START")) = [] ∧
      replies (dispatch sampleConfig (serverEnv 200 "200 OK") (annSays "/START")) =
        [{ ChatID := 100
           Text := "Используйте кнопки ниже или команду /start"
           ReplyMarkup := none }]) ∧
    (" /start" ≠ "/start" ∧
      deliveries (dispatch sampleConfig (serverEnv 200 "200 OK") (annSays " /start")) = [] ∧
      replies (dispatch sampleConfig (serverEnv 200 "200 OK") (annSays " /start")) =
        [{ ChatID := 100
           Text := "Используйте кнопки ниже или команду /start"
           ReplyMarkup := none }]) ∧
    ("видео" ≠ "Видео" ∧
      deliveries (dispatch sampleConfig (serverEnv 200 "200 OK") (annSays "видео")) = [] ∧
      replies (dispatch sampleConfig (serverEnv 200 "200 OK") (annSays "видео")) =
        [{ ChatID := 100
           Text := "Используйте кнопки ниже или команду /start"
           ReplyMarkup := none }]) ∧
    ("Текст " ≠ "Текст" ∧
      deliveries (dispatch sampleConfig (serverEnv 200 "200 OK") (annSays "Текст ")) = [] ∧
      replies (dispatch sampleConfig (serverEnv 200 "200 OK") (annSays "Текст ")) =
        [{ ChatID := 100
           Text := "Используйте кнопки ниже или команду /start"
           ReplyMarkup := none }]) :=
  have h0 := unknown_text_gets_fallback sampleConfig (serverEnv 200 "200 OK") (annSays "")
    (by decide) (by decide) (by decide) (by decide)
  have h1 := unknown_text_gets_fallback sampleConfig (serverEnv 200 "200 OK") (annSays "/START")
    (by decide) (by decide) (by decide) (by decide)
  have h2 := unknown_text_gets_fallback sampleConfig (serverEnv 200 "200 OK") (annSays " /start")
    (by decide) (by decide) (by decide) (by decide)
  have h3 := unknown_text_gets_fallback sampleConfig (serverEnv 200 "200 OK") (annSays "видео")
    (by decide) (by decide) (by decide) (by decide)
  have h4 := unknown_text_gets_fallback sampleConfig (serverEnv 200 "200 OK") (annSays "Текст ")
    (by decide) (by decide) (by decide) (by decide)
  ⟨⟨by decide, by decide, by decide, by decide, h0.1, h0.2.1⟩,
    ⟨by decide, h1.1, h1.2.1⟩, ⟨by decide, h2.1, h2.2.1⟩, ⟨by decide, h3.1, h3.2.1⟩,
    ⟨by decide, h4.1, h4.2.1⟩⟩

/-- C3: a message with text "/start" makes the dispatcher, whatever the delivery
outcome, call the delivery client exactly once with a profile record whose identity is
the decimal string of the sender id, and then send the welcome message with a keyboard
of one row holding exactly the three option labels. -/
theorem start_uploads_profile (cfg : Config) (env : Env) (m : Message) (h : m.Text = "/start") :
    calls (dispatch cfg env m) =
      [Effect.deliver
        { Data := [Record.profile
          { Type_ := "profile"
            Identity := formatInt m.From.ID
            ProfileData :=
              { Name := m.From.FirstName ++ " " ++ m.From.LastName
                TGUsername := m.From.UserName
                TGChatID := m.Chat.ID
                TGFirstName := m.From.FirstName
                TGLastName := m.From.LastName } }] },
       Effect.send
        { ChatID := m.Chat.ID
          Text := "Добро пожаловать! Выберите опцию:"
          ReplyMarkup := some
            { Keyboard := [[{ Text := "Текст" }, { Text := "Картинка" }, { Text := "Видео" }]]
              ResizeKeyboard := true } }] := by
  rw [calls_dispatch_start cfg env m h, calls_uploadCleverTapProfile,
    calls_sendWelcomeKeyboard]
  rfl

theorem start_uploads_profile_witness :
    (annSays "/start").Text = "/start" ∧
    calls (dispatch sampleConfig (serverEnv 503 "503 Service Unavailable") (annSays "/start")) =
      [Effect.deliver
        { Data := [Record.profile
          { Type_ := "profile"
            Identity := formatInt 42
            ProfileData :=
              { Name := "Ann" ++ " " ++ "Lee"
                TGUsername := "annlee"
                TGChatID := 100
                TGFirstName := "Ann"
                TGLastName := "Lee" } }] },
       Effect.send
        { ChatID := 100
          Text := "Добро пожаловать! Выберите опцию:"
          ReplyMarkup := some
            { Keyboard := [[{ Text := "Текст" }, { Text := "Картинка" }, { Text := "Видео" }]]
              ResizeKeyboard := true } }] :=
  ⟨rfl, start_uploads_profile sampleConfig (serverEnv 503 "503 Service Unavailable")
    (annSays "/start") rfl⟩

/-- C4: the messages the dispatcher sends to the chat do not depend on the outside
world: for every inbound message and any two environments (hence any two delivery
results), the sequences of chat messages are equal. -/
theorem replies_independent_of_delivery (cfg : Config) (env1 env2 : Env) (m : Message) :
    replies (dispatch cfg env1 m) = replies (dispatch cfg env2 m) := by
  rw [← replies_calls (dispatch cfg env1 m), ← replies_calls (dispatch cfg env2 m)]
  by_cases hs : m.Text = "/start"
  · rw [dispatch_start_calls_eq cfg env1 env2 m hs]
  · by_cases hb : m.Text = btnText ∨ m.Text = btnPicture ∨ m.Text = btnVideo
    · rw [calls_dispatch_button cfg env1 m _ hs hb rfl,
        calls_dispatch_button cfg env2 m _ hs hb rfl,
        calls_pushCleverTapEvent, calls_pushCleverTapEvent]
    · simp only [not_or] at hb
      rw [calls_dispatch_other cfg env1 m hs hb.1 hb.2.1 hb.2.2,
        calls_dispatch_other cfg env2 m hs hb.1 hb.2.1 hb.2.2]

/-! ## The record builders -/

/-- C5: for every user and chat id, and whatever the outside world does,
`uploadCleverTapProfile` builds and hands over one profile record: type "profile",
identity the decimal string of the user id, Name the first name, one space and the
last name (whether or not a part is empty), handle, chat id, first and last name
copied unchanged. The record is built for every input. -/
theorem uploadCleverTapProfile_record (cfg : Config) (env : Env) (user : User) (chatID : Int) :
    ∃ p : CTProfileData,
      deliveries (uploadCleverTapProfile cfg env user chatID).1 = [{ Data := [Record.profile p] }] ∧
      p.Type_ = "profile" ∧
      p.Identity = formatInt user.ID ∧
      p.ProfileData.Name = user.FirstName ++ " " ++ user.LastName ∧
      p.ProfileData.Name.data = user.FirstName.data ++ ' ' :: user.LastName.data ∧
      p.ProfileData.TGUsername = user.UserName ∧
      p.ProfileData.TGChatID = chatID ∧
      p.ProfileData.TGFirstName = user.FirstName ∧
      p.ProfileData.TGLastName = user.LastName := by
  refine ⟨{ Type_ := "profile"
            Identity := formatInt user.ID
            ProfileData :=
              { Name := user.FirstName ++ " " ++ user.LastName
                TGUsername := user.UserName
                TGChatID := chatID
                TGFirstName := user.FirstName
                TGLastName := user.LastName } }, ?_, rfl, rfl, rfl, ?_, rfl, rfl, rfl, rfl⟩
  · rw [← deliveries_calls, calls_uploadCleverTapProfile]
    rfl
  · simp [String.data_append]

/-- C6: for every identity string, chat id and event name, and whatever the outside
world does, `pushCleverTapEvent` hands the delivery client one envelope holding exactly
one record: type "event", the given identity, the given event name, the given chat id
and the constant source "TonWelcomeBot". -/
theorem pushCleverTapEvent_record (cfg : Config) (env : Env) (identity : String)
    (chatID : Int) (eventName : String) :
    ∃ e : CTEventData,
      deliveries (pushCleverTapEvent cfg env identity chatID eventName).1 =
        [{ Data := [Record.event e] }] ∧
      e.Type_ = "event" ∧
      e.Identity = identity ∧
      e.EvtName = eventName ∧
      e.EvtData.TGChatID = chatID ∧
      e.EvtData.Source = "TonWelcomeBot" := by
  refine ⟨{ Type_ := "event"
            Identity := identity
            EvtName := eventName
            EvtData := { TGChatID := chatID, Source := "TonWelcomeBot" } },
    ?_, rfl, rfl, rfl, rfl, rfl⟩
  rw [← deliveries_calls, calls_pushCleverTapEvent]
  rfl

/-! ## The delivery client -/

/-- C9: `sendToCleverTap` returns nil exactly when the encoder, the request constructor
and the round trip all succeed and the status code of the response is 200. A response
with status 201 or 204, an encoder error, a request error and a transport error each give
a non-nil error. -/
theorem sendToCleverTap_nil_iff (cfg : Config) (env : Env) (payload : CTPayload) :
    ((sendToCleverTap cfg env payload).2 = none ↔
      ∃ jsonData req resp,
        env.jsonMarshal payload = Except.ok jsonData ∧
        env.newRequest "POST" cleverTapAPIBaseURL jsonData = Except.ok req ∧
        env.clientDo
          (((req.setHeader "X-CleverTap-Account-Id" cfg.cleverTapAccountID).setHeader
            "X-CleverTap-Passcode" cfg.cleverTapPasscode).setHeader
            "Content-Type" "application/json; charset=utf-8") = Except.ok resp ∧
        resp.StatusCode = 200) ∧
    (sendToCleverTap cfg (serverEnv 200 "200 OK") payload).2 = none ∧
    (sendToCleverTap cfg (serverEnv 201 "201 Created") payload).2 =
      some "неуспешный статус от CleverTap: 201 Created" ∧
    (sendToCleverTap cfg (serverEnv 204 "204 No Content") payload).2 =
      some "неуспешный статус от CleverTap: 204 No Content" ∧
    (sendToCleverTap cfg { serverEnv 200 "200 OK" with
        jsonMarshal := fun _ => Except.error "unsupported type" } payload).2 =
      some "ошибка маршалинга JSON: unsupported type" ∧
    (sendToCleverTap cfg { serverEnv 200 "200 OK" with
        newRequest := fun _ _ _ => Except.error "invalid URL" } payload).2 =
      some "ошибка создания HTTP-запроса: invalid URL" ∧
    (sendToCleverTap cfg { serverEnv 200 "200 OK" with
        clientDo := fun _ => Except.error "timeout" } payload).2 =
      some "ошибка выполнения HTTP-запроса: timeout" := by
  refine ⟨?_, ?_, ?_, ?_, rfl, rfl, rfl⟩
  · constructor
    · intro h
      unfold sendToCleverTap at h
      cases h1 : env.jsonMarshal payload with
      | error e => simp [h1] at h
      | ok jsonData =>
        simp only [h1] at h
        cases h2 : env.newRequest "POST" cleverTapAPIBaseURL jsonData with
        | error e => simp [h2] at h
        | ok req =>
          simp only [h2] at h
          cases h3 : env.clientDo
            (((req.setHeader "X-CleverTap-Account-Id" cfg.cleverTapAccountID).setHeader
              "X-CleverTap-Passcode" cfg.cleverTapPasscode).setHeader
              "Content-Type" "application/json; charset=utf-8") with
          | error e => simp [h3] at h
          | ok resp =>
            simp only [h3] at h
            by_cases hc : resp.StatusCode = 200
            · exact ⟨jsonData, req, resp, rfl, h2, h3, hc⟩
            · simp [hc, StatusOK] at h
    · rintro ⟨jsonData, req, resp, h1, h2, h3, hc⟩
      simp [sendToCleverTap, h1, h2, h3, hc, StatusOK]
  · simp [sendToCleverTap, serverEnv, jsonMarshal, StatusOK]
  · simp [sendToCleverTap, serverEnv, jsonMarshal, StatusOK]
  · simp [sendToCleverTap, serverEnv, jsonMarshal, StatusOK]

/-! ## The request body -/

theorem posts_sendToCleverTap_serverEnv (cfg : Config) (statusCode : Int) (status : String)
    (payload : CTPayload) :
    posts (sendToCleverTap cfg (serverEnv statusCode status) payload).1 =
      [{ Method := "POST"
         URL := "https://api.clevertap.com/1/upload"
         Header :=
          [("X-CleverTap-Account-Id", cfg.cleverTapAccountID),
            ("X-CleverTap-Passcode", cfg.cleverTapPasscode),
            ("Content-Type", "application/json; charset=utf-8")]
         Body := "\x7b\"d\":[" ++ String.intercalate "," (payload.Data.map marshalRecord) ++
          "]\x7d" }] := by
  simp only [sendToCleverTap, serverEnv, jsonMarshal]
  split <;> rfl

theorem posts_append (a b : List Effect) : posts (a ++ b) = posts a ++ posts b := by
  simp [posts]

theorem posts_logErr (pre : String) (r : Option String) :
    posts (match r with
      | some err => [Effect.log (pre ++ err)]
      | none => []) = [] := by
  cases r <;> rfl

theorem posts_sendWelcomeKeyboard (env : Env) (chatID : Int) :
    posts (sendWelcomeKeyboard env chatID) = [] := by
  unfold sendWelcomeKeyboard
  dsimp only
  split <;> rfl

theorem posts_dispatch_start (cfg : Config) (env : Env) (m : Message) (h : m.Text = "/start") :
    posts (dispatch cfg env m) = posts (uploadCleverTapProfile cfg env m.From m.Chat.ID).1 := by
  unfold dispatch
  simp only [h, if_true]
  rw [show ∀ (l : String) (t : List Effect), posts (Effect.log l :: t) = posts t from
    fun _ _ => rfl]
  rw [posts_append, posts_append, posts_logErr, posts_sendWelcomeKeyboard, List.append_nil,
    List.append_nil]

theorem posts_uploadCleverTapProfile (cfg : Config) (env : Env) (user : User) (chatID : Int) :
    posts (uploadCleverTapProfile cfg env user chatID).1 =
      posts (sendToCleverTap cfg env
        { Data := [Record.profile
          { Type_ := "profile"
            Identity := formatInt user.ID
            ProfileData :=
              { Name := user.FirstName ++ " " ++ user.LastName
                TGUsername := user.UserName
                TGChatID := chatID
                TGFirstName := user.FirstName
                TGLastName := user.LastName } }] }).1 := rfl

/-- C10: for "/start" from user 42 "Ann" "Lee" (handle "annlee") in chat 100, the payload
handed to the delivery client serialises to exactly the body of the scenario, and with a
server answering any status that body is posted, once. For every user and chat the body
of a profile upload is an object with the single field "d" holding a one-element array,
the fields of the record carrying the names type, identity, profileData and Name,
tg_username, tg_chat_id, tg_first_name, tg_last_name, in this order. -/
theorem profile_upload_body (cfg : Config) (env : Env) (statusCode : Int) (status : String)
    (user : User) (chatID : Int) :
    (deliveries (dispatch cfg env (annSays "/start"))).map jsonMarshal =
      [Except.ok ("\x7b\"d\":[\x7b\"type\":\"profile\",\"identity\":\"42\"," ++
        "\"profileData\":\x7b\"Name\":\"Ann Lee\",\"tg_username\":\"annlee\"," ++
        "\"tg_chat_id\":100,\"tg_first_name\":\"Ann\",\"tg_last_name\":\"Lee\"\x7d\x7d]\x7d")] ∧
    (posts (dispatch cfg (serverEnv statusCode status) (annSays "/start"))).map
        (fun r => (r.Method, r.URL, r.Body)) =
      [("POST", "https://api.clevertap.com/1/upload",
        "\x7b\"d\":[\x7b\"type\":\"profile\",\"identity\":\"42\"," ++
        "\"profileData\":\x7b\"Name\":\"Ann Lee\",\"tg_username\":\"annlee\"," ++
        "\"tg_chat_id\":100,\"tg_first_name\":\"Ann\",\"tg_last_name\":\"Lee\"\x7d\x7d]\x7d")] ∧
    (deliveries (uploadCleverTapProfile cfg env user chatID).1).map jsonMarshal =
      [Except.ok ("\x7b\"d\":[\x7b\"type\":\"profile\"" ++
        ",\"identity\":" ++ appendString (formatInt user.ID) ++
        ",\"profileData\":\x7b\"Name\":" ++ appendString (user.FirstName ++ " " ++ user.LastName) ++
        ",\"tg_username\":" ++ appendString user.UserName ++
        ",\"tg_chat_id\":" ++ formatInt chatID ++
        ",\"tg_first_name\":" ++ appendString user.FirstName ++
        ",\"tg_last_name\":" ++ appendString user.LastName ++ "\x7d\x7d]\x7d")] := by
  refine ⟨?_, ?_, ?_⟩
  · rw [← deliveries_calls, calls_dispatch_start cfg env (annSays "/start") rfl,
      calls_uploadCleverTapProfile, calls_sendWelcomeKeyboard]
    rfl
  · rw [posts_dispatch_start cfg _ (annSays "/start") rfl, posts_uploadCleverTapProfile,
      posts_sendToCleverTap_serverEnv]
    rfl
  · rw [← deliveries_calls, calls_uploadCleverTapProfile]
    simp only [deliveries, List.filterMap_cons, List.filterMap_nil, List.map_cons, List.map_nil,
      jsonMarshal, marshalRecord, marshalCTProfileData, marshalCTUserProps, String.intercalate,
      String.intercalate.go]
    have hp : appendString "profile" = "\"profile\"" := by decide
    rw [hp]
    simp only [String.append_assoc]
    rfl

/-! ## Decimal strings -/

theorem digitChar_facts (k : Nat) (hk : k < 10) :
    (Nat.digitChar k).isDigit = true ∧ digitValue (Nat.digitChar k) = some k ∧
      (0 < k → Nat.digitChar k ≠ '0') ∧ Nat.digitChar k ≠ '-' ∧ Nat.digitChar k ≠ '+' := by
  interval_cases k <;> decide

theorem toDigitsCore_acc (fuel : Nat) : ∀ (n : Nat) (acc : List Char),
    Nat.toDigitsCore 10 fuel n acc = Nat.toDigitsCore 10 fuel n [] ++ acc := by
  induction fuel with
  | zero => intro n acc; simp [Nat.toDigitsCore]
  | succ f ih =>
    intro n acc
    simp only [Nat.toDigitsCore]
    split
    · simp
    · rw [ih (n / 10) (Nat.digitChar (n % 10) :: acc), ih (n / 10) [Nat.digitChar (n % 10)]]
      simp

theorem toDigitsCore_step (f n : Nat) :
    Nat.toDigitsCore 10 (f + 1) n [] =
      if n / 10 = 0 then [Nat.digitChar (n % 10)]
      else Nat.toDigitsCore 10 f (n / 10) [] ++ [Nat.digitChar (n % 10)] := by
  simp only [Nat.toDigitsCore]
  split
  · rfl
  · rw [toDigitsCore_acc]

theorem decimalNat_snoc (ds : List Char) (c : Char) :
    decimalNat (ds ++ [c]) =
      (decimalNat ds).bind (fun a => (digitValue c).map (fun d => 10 * a + d)) := by
  simp [decimalNat, List.foldl_append]

theorem decimalNat_toDigitsCore (fuel : Nat) : ∀ n : Nat, n < fuel →
    decimalNat (Nat.toDigitsCore 10 fuel n []) = some n := by
  induction fuel with
  | zero => intro n h; omega
  | succ f ih =>
    intro n h
    rw [toDigitsCore_step]
    have hd := (digitChar_facts (n % 10) (Nat.mod_lt n (by decide))).2.1
    split
    · rename_i h0
      simp only [decimalNat, List.foldl, Option.some_bind, hd, Option.map_some',
        Option.some.injEq]
      omega
    · rename_i h0
      rw [decimalNat_snoc, ih (n / 10) (by omega), hd]
      simp only [Option.some_bind, Option.map_some', Option.some.injEq]
      omega

theorem toDigitsCore_digits (fuel : Nat) : ∀ n : Nat,
    ∀ c ∈ Nat.toDigitsCore 10 fuel n [], c.isDigit = true ∧ c ≠ '-' ∧ c ≠ '+' := by
  induction fuel with
  | zero => intro n c hc; simp [Nat.toDigitsCore] at hc
  | succ f ih =>
    intro n c hc
    rw [toDigitsCore_step] at hc
    have hd := digitChar_facts (n % 10) (Nat.mod_lt n (by decide))
    split at hc
    · simp only [List.mem_singleton] at hc
      subst hc
      exact ⟨hd.1, hd.2.2.2⟩
    · rcases List.mem_append.mp hc with h | h
      · exact ih (n / 10) c h
      · simp only [List.mem_singleton] at h
        subst h
        exact ⟨hd.1, hd.2.2.2⟩

theorem toDigitsCore_head (fuel : Nat) : ∀ n : Nat, n < fuel → 0 < n →
    ∃ c cs, Nat.toDigitsCore 10 fuel n [] = c :: cs ∧ c ≠ '0' := by
  induction fuel with
  | zero => intro n h; omega
  | succ f ih =>
    intro n h hpos
    rw [toDigitsCore_step]
    split
    · rename_i h0
      exact ⟨_, [], rfl, (digitChar_facts (n % 10) (Nat.mod_lt n (by decide))).2.2.1 (by omega)⟩
    · rename_i h0
      obtain ⟨c, cs, hcs, hc⟩ := ih (n / 10) (by omega) (by omega)
      exact ⟨c, cs ++ [Nat.digitChar (n % 10)], by rw [hcs]; rfl, hc⟩

theorem toDigits_ne_nil (n : Nat) : ∃ c cs, Nat.toDigits 10 n = c :: cs := by
  unfold Nat.toDigits
  rw [toDigitsCore_step]
  split
  · exact ⟨_, _, rfl⟩
  · cases h : Nat.toDigitsCore 10 n (n / 10) [] with
    | nil => exact ⟨_, _, rfl⟩
    | cons c cs => exact ⟨c, _, rfl⟩

theorem decimalValue_formatInt (i : Int) : decimalValue (formatInt i) = some i := by
  have hval : decimalNat (Nat.toDigits 10 i.natAbs) = some i.natAbs :=
    decimalNat_toDigitsCore (i.natAbs + 1) i.natAbs (Nat.lt_succ_self _)
  obtain ⟨c, cs, hcs⟩ := toDigits_ne_nil i.natAbs
  have hne : Nat.toDigits 10 i.natAbs ≠ [] := by rw [hcs]; exact List.cons_ne_nil _ _
  unfold formatInt decimalValue
  by_cases hneg : i < 0
  · simp only [hneg, if_true, hne, if_false, hval, Option.map_some', Option.some.injEq]
    omega
  · have hc : c ≠ '-' :=
      (toDigitsCore_digits (i.natAbs + 1) i.natAbs c (by
        show c ∈ Nat.toDigits 10 i.natAbs
        rw [hcs]; exact List.mem_cons_self _ _)).2.1
    simp only [hneg, if_false]
    rw [hcs]
    simp only [hc, if_false]
    rw [← hcs, hval]
    simp only [Option.map_some', Option.some.injEq]
    omega

theorem formatInt_injective (u1 u2 : Int) (h : formatInt u1 = formatInt u2) : u1 = u2 := by
  have h1 := decimalValue_formatInt u1
  rw [h, decimalValue_formatInt u2] at h1
  exact (Option.some.inj h1).symm

theorem formatInt_pos (u : Int) (hu : 0 < u) :
    (∀ c ∈ (formatInt u).data, c.isDigit = true ∧ c ≠ '-' ∧ c ≠ '+') ∧
      (formatInt u).data.head? ≠ some '0' := by
  have hneg : ¬ u < 0 := by omega
  simp only [formatInt, hneg, if_false]
  refine ⟨toDigitsCore_digits (u.natAbs + 1) u.natAbs, ?_⟩
  obtain ⟨c, cs, hcs, hc⟩ := toDigitsCore_head (u.natAbs + 1) u.natAbs (Nat.lt_succ_self _)
    (by omega)
  show (Nat.toDigitsCore 10 (u.natAbs + 1) u.natAbs []).head? ≠ some '0'
  rw [hcs]
  simpa using hc

theorem formatInt_eq_toString (u : Int) : formatInt u = toString u := by
  cases u with
  | ofNat n =>
    have h : ¬ (Int.ofNat n < 0) := by simp
    simp only [formatInt, h, if_false]
    rfl
  | negSucc n =>
    have h : Int.negSucc n < 0 := Int.negSucc_lt_zero n
    simp only [formatInt, h, if_true]
    rfl

/-! ## Identity -/

theorem identitiesOf_calls (tr : List Effect) : identitiesOf (calls tr) = identitiesOf tr := by
  unfold identitiesOf
  rw [deliveries_calls]

theorem identitiesOf_dispatch (cfg : Config) (env : Env) (m : Message)
    (hcmd : m.Text = "/start" ∨ m.Text = "Текст" ∨ m.Text = "Картинка" ∨ m.Text = "Видео") :
    identitiesOf (dispatch cfg env m) = [formatInt m.From.ID] := by
  rw [← identitiesOf_calls]
  by_cases hs : m.Text = "/start"
  · rw [calls_dispatch_start cfg env m hs, calls_uploadCleverTapProfile,
      calls_sendWelcomeKeyboard]
    rfl
  · have hb : m.Text = btnText ∨ m.Text = btnPicture ∨ m.Text = btnVideo := by
      rcases hcmd with h | h
      · exact absurd h hs
      · exact h
    rw [calls_dispatch_button cfg env m _ hs hb rfl, calls_pushCleverTapEvent]
    rfl

/-- C7: for a "/start" message and for an option-label message alike, the one identity
handed to the delivery client (in the profile record, in the event record) is the
base-10 string of the sender id: read as a decimal numeral it denotes that id, and it is
the standard decimal rendering. For a positive id it holds only decimal digits, no sign,
and does not start with the digit zero. -/
theorem identity_is_decimal_string (cfg : Config) (env : Env) (m : Message)
    (hcmd : m.Text = "/start" ∨ m.Text = "Текст" ∨ m.Text = "Картинка" ∨ m.Text = "Видео") :
    ∃ s : String,
      identitiesOf (dispatch cfg env m) = [s] ∧
      decimalValue s = some m.From.ID ∧
      s = toString m.From.ID ∧
      (0 < m.From.ID →
        (∀ c ∈ s.data, c.isDigit = true ∧ c ≠ '-' ∧ c ≠ '+') ∧ s.data.head? ≠ some '0') :=
  ⟨formatInt m.From.ID, identitiesOf_dispatch cfg env m hcmd, decimalValue_formatInt _,
    formatInt_eq_toString _, formatInt_pos _⟩

theorem identity_is_decimal_string_witness :
    ((annSays "/start").Text = "/start" ∨ (annSays "/start").Text = "Текст" ∨
      (annSays "/start").Text = "Картинка" ∨ (annSays "/start").Text = "Видео") ∧
    (0 : Int) < (annSays "/start").From.ID ∧
    ∃ s : String,
      identitiesOf (dispatch sampleConfig (serverEnv 200 "200 OK") (annSays "/start")) = [s] ∧
      decimalValue s = some 42 ∧
      s = "42" ∧
      (∀ c ∈ s.data, c.isDigit = true ∧ c ≠ '-' ∧ c ≠ '+') ∧ s.data.head? ≠ some '0' :=
  have hpos : (0 : Int) < (annSays "/start").From.ID := by decide
  match identity_is_decimal_string sampleConfig (serverEnv 200 "200 OK") (annSays "/start")
    (Or.inl rfl) with
  | ⟨s, h1, h2, h3, h4⟩ => ⟨Or.inl rfl, hpos, s, h1, h2, h3, h4 hpos⟩

/-- C8: identity is injective on user ids, and one user id gives one identity in
profile and event records: for two messages that each trigger a delivery ("/start" or
an option label), the identities handed to the delivery client are equal exactly when
the two sender ids are equal. -/
theorem identity_injective (cfg : Config) (env1 env2 : Env) (m1 m2 : Message)
    (h1 : m1.Text = "/start" ∨ m1.Text = "Текст" ∨ m1.Text = "Картинка" ∨ m1.Text = "Видео")
    (h2 : m2.Text = "/start" ∨ m2.Text = "Текст" ∨ m2.Text = "Картинка" ∨ m2.Text = "Видео") :
    identitiesOf (dispatch cfg env1 m1) = identitiesOf (dispatch cfg env2 m2) ↔
      m1.From.ID = m2.From.ID := by
  rw [identitiesOf_dispatch cfg env1 m1 h1, identitiesOf_dispatch cfg env2 m2 h2]
  constructor
  · intro h
    exact formatInt_injective _ _ (List.head_eq_of_cons_eq h)
  · intro h
    rw [h]

theorem identity_injective_witness :
    identitiesOf (dispatch sampleConfig (serverEnv 200 "200 OK") (annSays "/start")) =
        identitiesOf (dispatch sampleConfig (serverEnv 500 "500") (annSays "Видео")) ∧
      identitiesOf (dispatch sampleConfig (serverEnv 200 "200 OK") (annSays "/start")) ≠
        identitiesOf (dispatch sampleConfig (serverEnv 200 "200 OK") (bobSays "/start")) :=
  ⟨(identity_injective sampleConfig (serverEnv 200 "200 OK") (serverEnv 500 "500")
      (annSays "/start") (annSays "Видео") (Or.inl rfl) (Or.inr (Or.inr (Or.inr rfl)))).mpr rfl,
    fun h => absurd
      ((identity_injective sampleConfig (serverEnv 200 "200 OK") (serverEnv 200 "200 OK")
        (annSays "/start") (bobSays "/start") (Or.inl rfl) (Or.inl rfl)).mp h)
      (by decide)⟩

end TonWelcome
